import Mathlib

/-!
Verification development for `MTPcode.py`, a script that extracts water-vapor
diffusion coefficients from WVTR-vs-thickness measurements by linear
regression and prints them in scientific notation.

Modelling conventions: Python floats are embedded as exact rationals (`ℚ`);
fallible operations (input validation inside `scipy.stats.linregress`,
Python division by zero) return `Option`.  Sequential fallible script code is
modelled in the `Option` monad.
-/

/-- Molar mass `Mw = 18.01528` (g/mol), source line 8. -/
def Mw : ℚ := 18.01528

/-- Inner vapor concentration `Ci = 1.1` (mol/m³), source line 9. -/
def Ci : ℚ := 1.1

/-- Outer vapor concentration `Co = 0.55` (mol/m³), source line 10. -/
def Co : ℚ := 0.55

/-- Paper thickness `Hp = 62.5e-6` (m), source line 11. -/
def Hp : ℚ := 62.5e-6

/-- Impermeable-PLA diffusion coefficient `D_PLA_imperm = 1e-15` (m²/s), source line 12. -/
def D_PLA_imperm : ℚ := 1e-15

/-- Thickness data `H_1x = np.array([57, 60, 62]) * 1e-6`, source line 19. -/
def H_1x : List ℚ := [57, 60, 62].map (· * 1e-6)

/-- WVTR data `WVTR_1x = np.array([3363, 2232, 1922])`, source line 20. -/
def WVTR_1x : List ℚ := [3363, 2232, 1922]

/-- Thickness data `H_2x = np.array([72, 74, 79]) * 1e-6`, source line 23. -/
def H_2x : List ℚ := [72, 74, 79].map (· * 1e-6)

/-- WVTR data `WVTR_2x = np.array([2395, 1673, 1513])`, source line 24. -/
def WVTR_2x : List ℚ := [2395, 1673, 1513]

/-- Thickness data `H_3x = np.array([73, 76, 79]) * 1e-6`, source line 27. -/
def H_3x : List ℚ := [73, 76, 79].map (· * 1e-6)

/-- WVTR data `WVTR_3x = np.array([2177, 1739, 1470])`, source line 28. -/
def WVTR_3x : List ℚ := [2177, 1739, 1470]

/-- Thickness data `H_PLA = np.array([64, 79, 81, 83]) * 1e-6`, source line 31. -/
def H_PLA : List ℚ := [64, 79, 81, 83].map (· * 1e-6)

/-- WVTR data `WVTR_PLA = np.array([1880, 452, 414, 212])`, source line 32. -/
def WVTR_PLA : List ℚ := [1880, 452, 414, 212]

/-- Arithmetic mean `np.mean`, as used inside `scipy.stats.linregress`. -/
def listMean (x : List ℚ) : ℚ := x.sum / (x.length : ℚ)

/-- Biased second moment `ssxm` of `np.cov(x, y, bias=1)`: the mean of squared
deviations from the mean (division by `N`, not `N - 1`). -/
def ssxmOf (x : List ℚ) : ℚ :=
  (x.map fun a => (a - listMean x) * (a - listMean x)).sum / (x.length : ℚ)

/-- Biased mixed moment `ssxym` of `np.cov(x, y, bias=1)`: the mean of products
of deviations from the respective means. -/
def ssxymOf (x y : List ℚ) : ℚ :=
  (List.zipWith (fun a b => (a - listMean x) * (b - listMean y)) x y).sum / (x.length : ℚ)

/-- Regression slope `slope = ssxym / ssxm` computed by `scipy.stats.linregress`. -/
def slopeOf (x y : List ℚ) : ℚ := ssxymOf x y / ssxmOf x

/-- Regression intercept `intercept = ymean - slope * xmean` computed by
`scipy.stats.linregress`. -/
def interceptOf (x y : List ℚ) : ℚ := listMean y - slopeOf x y * listMean x

/-- Squared correlation returned by `fit_linear` as `r**2`, source line 39.
`linregress` sets `r = 0` when `ssxm == 0` or `ssym == 0` and otherwise clamps
`r = ssxym / sqrt(ssxm * ssym)` into `[-1, 1]`; squaring that clamped value
gives `min 1 (ssxym² / (ssxm * ssym))`, which is how the square root
disappears in this exact-arithmetic embedding (`ssym` is `ssxmOf y`). -/
def rsqOf (x y : List ℚ) : ℚ :=
  if ssxmOf x = 0 ∨ ssxmOf y = 0 then 0
  else min 1 (ssxymOf x y * ssxymOf x y / (ssxmOf x * ssxmOf y))

/-- Embedding of `fit_linear` (source lines 37-39), which calls
`scipy.stats.linregress(H, WVTR)` and returns `(slope, intercept, r**2)`.
The three `none` branches are the `ValueError`s raised by `linregress`:
empty input, all `x` values identical (only checked for more than one point),
and shape mismatch inside `np.cov`. -/
def fit_linear (x y : List ℚ) : Option (ℚ × ℚ × ℚ) :=
  if x.length = 0 ∨ y.length = 0 then none
  else if (∀ a ∈ x, a = x.headD 0) ∧ 1 < x.length then none
  else if x.length ≠ y.length then none
  else some (slopeOf x y, interceptOf x y, rsqOf x y)

/-- Embedding of `extract_D` (source lines 41-42): `Mw * (Ci - Co) / abs(slope)`.
Division by a zero denominator raises `ZeroDivisionError` in Python, modelled
by `none`. -/
def extract_D (slope : ℚ) : Option ℚ :=
  if |slope| = 0 then none else some (Mw * (Ci - Co) / |slope|)

/-- Model of `np.ndarray.min` on a nonempty array (the script only applies it
to nonempty data). -/
def npMin (l : List ℚ) : ℚ :=
  match l with
  | [] => 0
  | a :: t => t.foldl min a

/-- Model of `np.ndarray.max` on a nonempty array. -/
def npMax (l : List ℚ) : ℚ :=
  match l with
  | [] => 0
  | a :: t => t.foldl max a

/-- Model of `np.linspace(a, b, num)`: `num` evenly spaced samples from `a`
to `b` inclusive. -/
def linspace (a b : ℚ) (num : ℕ) : List ℚ :=
  (List.range num).map fun k : ℕ => a + (b - a) * (k : ℚ) / ((num : ℚ) - 1)

/-- Sampled thickness domain `Hfit_P = np.linspace(H_PLA.min(), H_PLA.max(), 200)`,
source line 70. -/
def Hfit_P : List ℚ := linspace (npMin H_PLA) (npMax H_PLA) 200

/-- Two-layer series-resistance formula from source line 76, with the diffusion
coefficient `D` as a parameter (the script instantiates `D := D_PLA_imperm`):
`Mw * (Ci - Co) / (Hp / D + H / D)`. -/
def WVTR_twoLayer (D H : ℚ) : ℚ := Mw * (Ci - Co) / (Hp / D + H / D)

/-- Synthetic impermeable-reference curve, source line 76:
`WVTR_PLA_imperm = Mw*(Ci-Co) / (Hp/D_PLA_imperm + Hfit_P/D_PLA_imperm)`,
a numpy broadcast over the sampled thickness array. -/
def WVTR_PLA_imperm : List ℚ := Hfit_P.map (WVTR_twoLayer D_PLA_imperm)

/-- Fuel-indexed search for the scientific-notation exponent: `sciExpAux a n`
returns the largest `e` with `10^e ≤ a` among `e = n - 101, …, -100`, and
`-100` if none qualifies.  Used to model CPython float formatting. -/
def sciExpAux (a : ℚ) : ℕ → ℤ
  | 0 => -100
  | n + 1 => if (10 : ℚ) ^ ((n : ℤ) - 100) ≤ a then (n : ℤ) - 100 else sciExpAux a n

/-- Decimal exponent of `a > 0` in scientific notation: the largest `e` with
`10^e ≤ a`, for exponents in the range `[-100, 200]`, which covers every value
this program formats. -/
def sciExp (a : ℚ) : ℤ := sciExpAux a 301

/-- Round-half-even (banker's rounding) of a nonnegative rational to an
integer, as CPython uses for decimal digit rounding in float formatting. -/
def roundHalfEven (q : ℚ) : ℤ :=
  let n := ⌊q⌋
  if q - n < 1 / 2 then n
  else if 1 / 2 < q - n then n + 1
  else if n % 2 = 0 then n else n + 1

/-- Decimal rendering of a natural number below 100 padded to two digits. -/
def twoDigits (n : ℕ) : String := (if n < 10 then "0" else "") ++ toString n

/-- Exponent field of CPython `"%.2e"` formatting: sign always present,
at least two exponent digits. -/
def expPart (e : ℤ) : String := (if e < 0 then "e-" else "e+") ++ twoDigits e.natAbs

/-- Modelled from the spec: CPython `f"{x:.2e}"` formatting (the spec's
"scientific notation, two decimal places, 'e' exponent"), for a rational in
place of the IEEE double: mantissa `d.dd` rounded half-even to two decimal
places, then the signed two-digit exponent. -/
def formatSci (q : ℚ) : String :=
  if q = 0 then "0.00e+00"
  else
    let sign := if q < 0 then "-" else ""
    let a := |q|
    let e0 := sciExp a
    let d0 := (roundHalfEven (a / (10 : ℚ) ^ e0 * 100)).toNat
    let d := if 1000 ≤ d0 then 100 else d0
    let e := if 1000 ≤ d0 then e0 + 1 else e0
    sign ++ toString (d / 100) ++ "." ++ twoDigits (d % 100) ++ expPart e

/-- Recognizer for the coefficient-reporting lines of the output: the five
`print` f-strings of source lines 58-62 all end in `" m²/s"`, the header line
of source line 57 does not. -/
def reportsD (l : String) : Bool := List.isSuffixOf " m²/s".data l.data

/-- Standard-output text of the script (source lines 57-62) as a list of
lines: a header followed by five coefficient lines.  The fallible steps
feeding it (the four fits of lines 44-47 and the four extractions of lines
49-52) are sequenced in the `Option` monad; `none` models an uncaught
exception before any printing. -/
def printed_lines : Option (List String) := do
  let (s1, _i1, _r1) ← fit_linear H_1x WVTR_1x
  let (s2, _i2, _r2) ← fit_linear H_2x WVTR_2x
  let (s3, _i3, _r3) ← fit_linear H_3x WVTR_3x
  let (sP, _iP, _rP) ← fit_linear H_PLA WVTR_PLA
  let ds1 ← extract_D s1
  let ds2 ← extract_D s2
  let ds3 ← extract_D s3
  let dsP ← extract_D sP
  pure
    [ "Extracted diffusion coefficients (linear regression):",
      "Biopolymer-1 Ds (1×) = " ++ formatSci ds1 ++ " m²/s",
      "Biopolymer-1 Ds (2×) = " ++ formatSci ds2 ++ " m²/s",
      "Biopolymer-1 Ds (3×) = " ++ formatSci ds3 ++ " m²/s",
      "PLA Ds (permeable) = " ++ formatSci dsP ++ " m²/s",
      "PLA Ds (impermeable) = " ++ formatSci D_PLA_imperm ++ " m²/s" ]

/-! ### Helper lemmas -/

/-- The fixed numerator `Mw * (Ci - Co)` of the extraction formula is positive. -/
theorem MwCiCo_pos : 0 < Mw * (Ci - Co) := by norm_num [Mw, Ci, Co]

/-! ### Claims about `extract_D` -/

/-- C1: for every nonzero slope `s`, `extract_D s` succeeds with the value
`Mw * (Ci - Co) / |s|` for the fixed constants `Mw = 18.01528`, `Ci = 1.1`,
`Co = 0.55`, and that value is strictly positive. -/
theorem extract_D_formula_and_positive (s : ℚ) (hs : s ≠ 0) :
    extract_D s = some (Mw * (Ci - Co) / |s|) ∧ 0 < Mw * (Ci - Co) / |s| := by
  constructor
  · unfold extract_D
    rw [if_neg fun h => hs (abs_eq_zero.mp h)]
  · exact div_pos MwCiCo_pos (abs_pos.mpr hs)

/-- Witness for C1 at the concrete slope `-2`. -/
theorem extract_D_formula_and_positive_witness :
    extract_D (-2) = some (Mw * (Ci - Co) / |(-2 : ℚ)|) ∧
      0 < Mw * (Ci - Co) / |(-2 : ℚ)| :=
  extract_D_formula_and_positive (-2) (by norm_num)

/-- C2: called on a zero slope, `extract_D` fails (Python raises
`ZeroDivisionError`) instead of returning a numeric value. -/
theorem extract_D_zero_slope_rejected : extract_D 0 = none := by
  unfold extract_D
  rw [if_pos (by rw [abs_zero])]

/-- C5: `extract_D` is strictly decreasing in the absolute value of the slope:
whenever `|s₁| < |s₂|` for nonzero slopes, the extracted coefficients satisfy
`d₂ < d₁`. -/
theorem extract_D_strict_anti_in_abs_slope (s₁ s₂ d₁ d₂ : ℚ)
    (h₁ : s₁ ≠ 0) (h₂ : s₂ ≠ 0) (hlt : |s₁| < |s₂|)
    (e₁ : extract_D s₁ = some d₁) (e₂ : extract_D s₂ = some d₂) : d₂ < d₁ := by
  unfold extract_D at e₁ e₂
  rw [if_neg fun h => h₁ (abs_eq_zero.mp h)] at e₁
  rw [if_neg fun h => h₂ (abs_eq_zero.mp h)] at e₂
  obtain rfl : Mw * (Ci - Co) / |s₁| = d₁ := Option.some.inj e₁
  obtain rfl : Mw * (Ci - Co) / |s₂| = d₂ := Option.some.inj e₂
  exact div_lt_div_of_pos_left MwCiCo_pos (abs_pos.mpr h₁) hlt

/-- Witness for C5 at the concrete slopes `1` and `-3`. -/
theorem extract_D_strict_anti_in_abs_slope_witness :
    Mw * (Ci - Co) / |(-3 : ℚ)| < Mw * (Ci - Co) / |(1 : ℚ)| := by
  refine extract_D_strict_anti_in_abs_slope 1 (-3) _ _ (by norm_num) (by norm_num)
    (by norm_num) ?_ ?_
  · unfold extract_D
    rw [if_neg (by norm_num)]
  · unfold extract_D
    rw [if_neg (by norm_num)]

/-- C10: `extract_D` is an even function of the slope, so the sign of the
fitted slope never affects the reported diffusion coefficient. -/
theorem extract_D_even (s : ℚ) (hs : s ≠ 0) : extract_D (-s) = extract_D s := by
  unfold extract_D
  rw [abs_neg]

/-- Witness for C10 at the concrete slope `3`. -/
theorem extract_D_even_witness : extract_D (-3) = extract_D 3 :=
  extract_D_even 3 (by norm_num)

/-! ### Concrete regression results (exact rational arithmetic) -/

/-- Fit of the 1× Biopolymer-1 series, source line 44. -/
theorem fit1_eq :
    fit_linear H_1x WVTR_1x =
      some (-5609000000 / 19, 382278 / 19, 31460881 / 32791549) := by
  norm_num [fit_linear, H_1x, WVTR_1x, slopeOf, interceptOf, rsqOf, ssxymOf, ssxmOf,
    listMean, min_def]

/-- Fit of the 2× Biopolymer-1 series, source line 45. -/
theorem fit2_eq :
    fit_linear H_2x WVTR_2x =
      some (-1403000000 / 13, 388228 / 39, 5905227 / 8611252) := by
  norm_num [fit_linear, H_2x, WVTR_2x, slopeOf, interceptOf, rsqOf, ssxymOf, ssxmOf,
    listMean, min_def]

/-- Fit of the 3× Biopolymer-1 series, source line 46. -/
theorem fit3_eq :
    fit_linear H_3x WVTR_3x =
      some (-353500000 / 3, 32252 / 3, 1499547 / 1528108) := by
  norm_num [fit_linear, H_3x, WVTR_3x, slopeOf, interceptOf, rsqOf, ssxymOf, ssxmOf,
    listMean, min_def]

/-- Fit of the PLA series, source line 47. -/
theorem fitP_eq :
    fit_linear H_PLA WVTR_PLA =
      some (-79474000000 / 899, 6764440 / 899, 1579029169 / 1589075097) := by
  norm_num [fit_linear, H_PLA, WVTR_PLA, slopeOf, interceptOf, rsqOf, ssxymOf, ssxmOf,
    listMean, min_def]

/-- Extracted coefficient `Ds_1x`, source line 49. -/
theorem extract1_eq :
    extract_D (-5609000000 / 19) = some (47064919 / 1402250000000000) := by
  unfold extract_D
  rw [show |(-5609000000 / 19 : ℚ)| = 5609000000 / 19 by
    rw [abs_of_neg (by norm_num)]; norm_num]
  norm_num [Mw, Ci, Co]

/-- Extracted coefficient `Ds_2x`, source line 50. -/
theorem extract2_eq :
    extract_D (-1403000000 / 13) = some (32202313 / 350750000000000) := by
  unfold extract_D
  rw [show |(-1403000000 / 13 : ℚ)| = 1403000000 / 13 by
    rw [abs_of_neg (by norm_num)]; norm_num]
  norm_num [Mw, Ci, Co]

/-- Extracted coefficient `Ds_3x`, source line 51. -/
theorem extract3_eq :
    extract_D (-353500000 / 3) = some (7431303 / 88375000000000) := by
  unfold extract_D
  rw [show |(-353500000 / 3 : ℚ)| = 353500000 / 3 by
    rw [abs_of_neg (by norm_num)]; norm_num]
  norm_num [Mw, Ci, Co]

/-- Extracted coefficient `D_PLA_perm`, source line 52. -/
theorem extractP_eq :
    extract_D (-79474000000 / 899) = some (2226913799 / 19868500000000000) := by
  unfold extract_D
  rw [show |(-79474000000 / 899 : ℚ)| = 79474000000 / 899 by
    rw [abs_of_neg (by norm_num)]; norm_num]
  norm_num [Mw, Ci, Co]

/-! ### C3: end-to-end scenario on the 1× series -/

/-- C3 counterexample: on `H_1x`, `WVTR_1x` the pipeline yields the diffusion
coefficient `47064919 / 1402250000000000 ≈ 3.36e-8`, which is NOT at most
`1e-9`, so the claimed range `[1e-11, 1e-9]` fails. -/
theorem extract_D_1x_range_counterexample :
    fit_linear H_1x WVTR_1x =
        some (-5609000000 / 19, 382278 / 19, 31460881 / 32791549) ∧
      extract_D (-5609000000 / 19) = some (47064919 / 1402250000000000) ∧
      ¬((47064919 / 1402250000000000 : ℚ) ≤ 1e-9) :=
  ⟨fit1_eq, extract1_eq, by norm_num⟩

/-- C3 amended: for `H_1x = [57e-6, 60e-6, 62e-6]` and
`WVTR_1x = [3363, 2232, 1922]` the fitted slope is negative and `extract_D`
returns a positive value lying between `1e-11` and `1e-7` m²/s. -/
theorem extract_D_1x_range_amended :
    ∃ s i r2 d, fit_linear H_1x WVTR_1x = some (s, i, r2) ∧ s < 0 ∧
      extract_D s = some d ∧ 0 < d ∧ 1e-11 < d ∧ d < 1e-7 := by
  refine ⟨_, _, _, _, fit1_eq, by norm_num, extract1_eq, by norm_num, by norm_num,
    by norm_num⟩

/-! ### C6: coefficients of determination lie in the unit interval -/

/-- C6: for each of the four experimental series the fit succeeds and the
returned R² value lies in the closed interval `[0, 1]`. -/
theorem rsq_in_unit_interval_all_series :
    (∃ t, fit_linear H_1x WVTR_1x = some t ∧ 0 ≤ t.2.2 ∧ t.2.2 ≤ 1) ∧
    (∃ t, fit_linear H_2x WVTR_2x = some t ∧ 0 ≤ t.2.2 ∧ t.2.2 ≤ 1) ∧
    (∃ t, fit_linear H_3x WVTR_3x = some t ∧ 0 ≤ t.2.2 ∧ t.2.2 ≤ 1) ∧
    (∃ t, fit_linear H_PLA WVTR_PLA = some t ∧ 0 ≤ t.2.2 ∧ t.2.2 ≤ 1) :=
  ⟨⟨_, fit1_eq, by norm_num, by norm_num⟩,
   ⟨_, fit2_eq, by norm_num, by norm_num⟩,
   ⟨_, fit3_eq, by norm_num, by norm_num⟩,
   ⟨_, fitP_eq, by norm_num, by norm_num⟩⟩

/-! ### C8: failure conditions of `fit_linear` -/

/-- C8 counterexample: on a single data point — fewer than 2 points — the
regression does NOT fail: `linregress` only rejects identical x values when
there is more than one point, so `fit_linear [1] [5]` returns a (degenerate)
result instead of an error. -/
theorem fit_linear_failure_counterexample :
    ∃ t, fit_linear [(1 : ℚ)] [(5 : ℚ)] = some t := by
  refine ⟨(slopeOf [1] [5], interceptOf [1] [5], rsqOf [1] [5]), ?_⟩
  unfold fit_linear
  rw [if_neg (by norm_num), if_neg (by norm_num), if_neg (by norm_num)]

/-- C8 amended: `fit_linear` fails (the underlying `ValueError` propagates to
the caller) whenever its input sequences have mismatched lengths, either input
is empty, or the x sequence is constant with at least 2 points; an input with
exactly one point, however, returns a degenerate result without error. -/
theorem fit_linear_failure_amended (x y : List ℚ)
    (h : x.length = 0 ∨ y.length = 0 ∨ x.length ≠ y.length ∨
      ((∀ a ∈ x, a = x.headD 0) ∧ 2 ≤ x.length)) :
    fit_linear x y = none := by
  unfold fit_linear
  rcases h with h | h | h | ⟨hc, hl⟩
  · rw [if_pos (Or.inl h)]
  · rw [if_pos (Or.inr h)]
  · by_cases h0 : x.length = 0 ∨ y.length = 0
    · rw [if_pos h0]
    · rw [if_neg h0]
      by_cases hcc : (∀ a ∈ x, a = x.headD 0) ∧ 1 < x.length
      · rw [if_pos hcc]
      · rw [if_neg hcc, if_pos h]
  · by_cases h0 : x.length = 0 ∨ y.length = 0
    · rw [if_pos h0]
    · rw [if_neg h0, if_pos ⟨hc, hl⟩]

/-- Witness for C8 (amended) at the constant two-point series `x = [1, 1]`. -/
theorem fit_linear_failure_amended_witness :
    fit_linear [(1 : ℚ), 1] [(2 : ℚ), 3] = none :=
  fit_linear_failure_amended [1, 1] [2, 3]
    (Or.inr (Or.inr (Or.inr ⟨by simp, by norm_num⟩)))

/-! ### C7: fit-then-refit idempotence -/

/-- Sum of an affine image of a list. -/
theorem sum_map_affine (x : List ℚ) (s i : ℚ) :
    (x.map fun a => s * a + i).sum = s * x.sum + (x.length : ℚ) * i := by
  induction x with
  | nil => simp
  | cons a t ih =>
    simp only [List.map_cons, List.sum_cons, ih, List.length_cons]
    push_cast
    ring

/-- Mean of an affine image of a nonempty list. -/
theorem listMean_map_affine (x : List ℚ) (s i : ℚ) (hx : x.length ≠ 0) :
    listMean (x.map fun a => s * a + i) = s * listMean x + i := by
  unfold listMean
  rw [List.length_map, sum_map_affine]
  have hn : (x.length : ℚ) ≠ 0 := Nat.cast_ne_zero.mpr hx
  field_simp
  ring

/-- Mixed moment of a list against an affine image of itself. -/
theorem ssxym_refit (x : List ℚ) (s i : ℚ) (hx : x.length ≠ 0) :
    ssxymOf x (x.map fun a => s * a + i) = s * ssxmOf x := by
  unfold ssxymOf ssxmOf
  rw [listMean_map_affine x s i hx]
  rw [List.zipWith_map_right]
  rw [List.zipWith_same]
  have hfun : (x.map fun a => (a - listMean x) * (s * a + i - (s * listMean x + i))).sum
      = s * (x.map fun a => (a - listMean x) * (a - listMean x)).sum := by
    rw [show (fun a => (a - listMean x) * (s * a + i - (s * listMean x + i)))
        = fun a => s * ((a - listMean x) * (a - listMean x)) from funext fun a => by ring]
    exact List.sum_map_mul_left x _ s
  rw [hfun, mul_div_assoc]

/-- Refitting the predicted values reproduces the slope.  When `ssxm = 0`
(a single data point) both slopes are the junk value `0` of rational division
by zero, matching the script's degenerate behaviour. -/
theorem slope_refit (x y : List ℚ) (hx : x.length ≠ 0) :
    slopeOf x (x.map fun a => slopeOf x y * a + interceptOf x y) = slopeOf x y := by
  unfold slopeOf
  rw [ssxym_refit x _ _ hx]
  by_cases hss : ssxmOf x = 0
  · rw [hss]
    simp
  · rw [mul_div_assoc, div_self hss, mul_one]

/-- Refitting the predicted values reproduces the intercept. -/
theorem intercept_refit (x y : List ℚ) (hx : x.length ≠ 0) :
    interceptOf x (x.map fun a => slopeOf x y * a + interceptOf x y) = interceptOf x y := by
  have h1 : interceptOf x (x.map fun a => slopeOf x y * a + interceptOf x y)
      = listMean (x.map fun a => slopeOf x y * a + interceptOf x y)
        - slopeOf x (x.map fun a => slopeOf x y * a + interceptOf x y) * listMean x := rfl
  rw [h1, slope_refit x y hx, listMean_map_affine x _ _ hx]
  ring

/-- C7: whenever `fit_linear` succeeds on `(x, y)` with slope `s` and
intercept `i`, refitting the predicted values `s * x + i` succeeds and returns
the identical slope and intercept. -/
theorem fit_refit_idempotent (x y : List ℚ) (s i r2 : ℚ)
    (h : fit_linear x y = some (s, i, r2)) :
    Option.map (fun t => (t.1, t.2.1)) (fit_linear x (x.map fun a => s * a + i)) =
      some (s, i) := by
  unfold fit_linear at h ⊢
  by_cases h0 : x.length = 0 ∨ y.length = 0
  · rw [if_pos h0] at h
    exact absurd h (by simp)
  · rw [if_neg h0] at h
    by_cases hc : (∀ a ∈ x, a = x.headD 0) ∧ 1 < x.length
    · rw [if_pos hc] at h
      exact absurd h (by simp)
    · rw [if_neg hc] at h
      by_cases hl : x.length ≠ y.length
      · rw [if_pos hl] at h
        exact absurd h (by simp)
      · rw [if_neg hl] at h
        simp only [Option.some.injEq, Prod.mk.injEq] at h
        obtain ⟨hs, hi, -⟩ := h
        have hxne : x.length ≠ 0 := fun hh => h0 (Or.inl hh)
        subst hs
        subst hi
        rw [if_neg (by simp [hxne]), if_neg hc, if_neg (by simp)]
        simp only [Option.map_some']
        rw [slope_refit x y hxne, intercept_refit x y hxne]

/-- Witness for C7 on the concrete 1× Biopolymer-1 series. -/
theorem fit_refit_idempotent_witness :
    Option.map (fun t => (t.1, t.2.1))
        (fit_linear H_1x (H_1x.map fun a => (-5609000000 / 19) * a + 382278 / 19)) =
      some (-5609000000 / 19, 382278 / 19) :=
  fit_refit_idempotent H_1x WVTR_1x _ _ _ fit1_eq

/-! ### C4: synthetic impermeable-reference curve -/

/-- C4: every sampled point of `WVTR_PLA_imperm` equals
`Mw*(Ci-Co) / (Hp/D + H/D)` at the corresponding thickness `H` (with
`D = D_PLA_imperm`); for any positive `D` the two-layer formula is strictly
decreasing in `H` over nonnegative thickness; and concretely with
`D_PLA_imperm = 1e-15` its value at `H = 64e-6` strictly exceeds the value at
`H = 83e-6`. -/
theorem impermeable_curve_formula_and_decreasing :
    (∀ k, k < Hfit_P.length →
        WVTR_PLA_imperm.getD k 0 =
          Mw * (Ci - Co) / (Hp / D_PLA_imperm + Hfit_P.getD k 0 / D_PLA_imperm)) ∧
    (∀ D H₁ H₂ : ℚ, 0 < D → 0 ≤ H₁ → H₁ < H₂ →
        WVTR_twoLayer D H₂ < WVTR_twoLayer D H₁) ∧
    WVTR_twoLayer D_PLA_imperm (83e-6) < WVTR_twoLayer D_PLA_imperm (64e-6) := by
  have hmono : ∀ D H₁ H₂ : ℚ, 0 < D → 0 ≤ H₁ → H₁ < H₂ →
      WVTR_twoLayer D H₂ < WVTR_twoLayer D H₁ := by
    intro D H₁ H₂ hD h1 h12
    unfold WVTR_twoLayer
    have hp : (0 : ℚ) < Hp := by norm_num [Hp]
    have hd1 : 0 < Hp / D + H₁ / D := by positivity
    have hd2 : 0 < Hp / D + H₂ / D := by
      have : (0 : ℚ) ≤ H₂ := le_of_lt (lt_of_le_of_lt h1 h12)
      positivity
    have hlt : Hp / D + H₁ / D < Hp / D + H₂ / D := by gcongr
    exact (div_lt_div_iff_of_pos_left (by norm_num [Mw, Ci, Co]) hd2 hd1).mpr hlt
  refine ⟨?_, hmono, hmono D_PLA_imperm (64e-6) (83e-6)
    (by norm_num [D_PLA_imperm]) (by norm_num) (by norm_num)⟩
  intro k hk
  have hk' : k < (Hfit_P.map (WVTR_twoLayer D_PLA_imperm)).length := by
    simpa using hk
  unfold WVTR_PLA_imperm
  rw [List.getD_eq_getElem?_getD, List.getD_eq_getElem?_getD,
    List.getElem?_eq_getElem hk', List.getElem?_eq_getElem hk]
  simp only [List.getElem_map, Option.getD_some]
  rfl

/-- Witness for C4: instantiation at the first sample point and at the
concrete arguments `D = 1`, `H₁ = 0`, `H₂ = 1`. -/
theorem impermeable_curve_formula_and_decreasing_witness :
    WVTR_PLA_imperm.getD 0 0 =
        Mw * (Ci - Co) / (Hp / D_PLA_imperm + Hfit_P.getD 0 0 / D_PLA_imperm) ∧
      WVTR_twoLayer 1 1 < WVTR_twoLayer 1 0 :=
  ⟨impermeable_curve_formula_and_decreasing.1 0
      (by unfold Hfit_P linspace; rw [List.length_map, List.length_range]; norm_num),
    impermeable_curve_formula_and_decreasing.2.1 1 0 1 one_pos le_rfl zero_lt_one⟩

/-! ### C9: printed output -/

theorem sciExpAux_spec (a : ℚ) (e : ℤ) (h1 : (10 : ℚ) ^ e ≤ a)
    (h2 : a < (10 : ℚ) ^ (e + 1)) (h3 : -100 ≤ e) :
    ∀ n : ℕ, e + 100 < (n : ℤ) → sciExpAux a n = e := by
  intro n
  induction n with
  | zero => intro hn; omega
  | succ m ih =>
    intro hn
    unfold sciExpAux
    by_cases hcase : (m : ℤ) - 100 = e
    · rw [if_pos (by rw [hcase]; exact h1), hcase]
    · have hgt : e + 100 < (m : ℤ) := by
        push_cast at hn
        omega
      have hle : e + 1 ≤ (m : ℤ) - 100 := by omega
      rw [if_neg (not_le.mpr (lt_of_lt_of_le h2
        (zpow_le_zpow_right₀ (by norm_num) hle)))]
      exact ih (by omega)

theorem sciExp_spec (a : ℚ) (e : ℤ) (h1 : (10 : ℚ) ^ e ≤ a)
    (h2 : a < (10 : ℚ) ^ (e + 1)) (h3 : -100 ≤ e) (h4 : e ≤ 200) :
    sciExp a = e :=
  sciExpAux_spec a e h1 h2 h3 301 (by omega)

theorem sciExp_D1 : sciExp (47064919 / 1402250000000000) = -8 := by
  apply sciExp_spec
  · norm_num
  · norm_num
  · norm_num
  · norm_num

theorem rhe_D1 : roundHalfEven (47064919 / 140225) = 336 := by
  unfold roundHalfEven
  rw [show ⌊(47064919 / 140225 : ℚ)⌋ = 335 from Int.floor_eq_iff.mpr (by norm_num)]
  norm_num

theorem fmt_D1 : formatSci (47064919 / 1402250000000000) = "3.36e-08" := by
  unfold formatSci
  rw [if_neg (by norm_num), if_neg (by norm_num),
    abs_of_pos (by norm_num : (0 : ℚ) < 47064919 / 1402250000000000)]
  dsimp only
  rw [sciExp_D1,
    show (47064919 / 1402250000000000 : ℚ) / (10 : ℚ) ^ (-8 : ℤ) * 100 =
      47064919 / 140225 from by norm_num, rhe_D1]
  rfl

theorem sciExp_D2 : sciExp (32202313 / 350750000000000) = -8 := by
  apply sciExp_spec <;> norm_num

theorem rhe_D2 : roundHalfEven (32202313 / 35075) = 918 := by
  unfold roundHalfEven
  rw [show ⌊(32202313 / 35075 : ℚ)⌋ = 918 from Int.floor_eq_iff.mpr (by norm_num)]
  norm_num

theorem fmt_D2 : formatSci (32202313 / 350750000000000) = "9.18e-08" := by
  unfold formatSci
  rw [if_neg (by norm_num), if_neg (by norm_num),
    abs_of_pos (by norm_num : (0 : ℚ) < 32202313 / 350750000000000)]
  dsimp only
  rw [sciExp_D2,
    show (32202313 / 350750000000000 : ℚ) / (10 : ℚ) ^ (-8 : ℤ) * 100 =
      32202313 / 35075 from by norm_num, rhe_D2]
  rfl

theorem sciExp_D3 : sciExp (7431303 / 88375000000000) = -8 := by
  apply sciExp_spec <;> norm_num

theorem rhe_D3 : roundHalfEven (74313030 / 88375) = 841 := by
  unfold roundHalfEven
  rw [show ⌊(74313030 / 88375 : ℚ)⌋ = 840 from Int.floor_eq_iff.mpr (by norm_num)]
  norm_num

theorem fmt_D3 : formatSci (7431303 / 88375000000000) = "8.41e-08" := by
  unfold formatSci
  rw [if_neg (by norm_num), if_neg (by norm_num),
    abs_of_pos (by norm_num : (0 : ℚ) < 7431303 / 88375000000000)]
  dsimp only
  rw [sciExp_D3,
    show (7431303 / 88375000000000 : ℚ) / (10 : ℚ) ^ (-8 : ℤ) * 100 =
      74313030 / 88375 from by norm_num, rhe_D3]
  rfl

theorem sciExp_DP : sciExp (2226913799 / 19868500000000000) = -7 := by
  apply sciExp_spec <;> norm_num

theorem rhe_DP : roundHalfEven (2226913799 / 19868500) = 112 := by
  unfold roundHalfEven
  rw [show ⌊(2226913799 / 19868500 : ℚ)⌋ = 112 from Int.floor_eq_iff.mpr (by norm_num)]
  norm_num

theorem fmt_DP : formatSci (2226913799 / 19868500000000000) = "1.12e-07" := by
  unfold formatSci
  rw [if_neg (by norm_num), if_neg (by norm_num),
    abs_of_pos (by norm_num : (0 : ℚ) < 2226913799 / 19868500000000000)]
  dsimp only
  rw [sciExp_DP,
    show (2226913799 / 19868500000000000 : ℚ) / (10 : ℚ) ^ (-7 : ℤ) * 100 =
      2226913799 / 19868500 from by norm_num, rhe_DP]
  rfl

theorem sciExp_Dimp : sciExp D_PLA_imperm = -15 := by
  apply sciExp_spec <;> norm_num [D_PLA_imperm]

theorem rhe_Dimp : roundHalfEven 100 = 100 := by
  unfold roundHalfEven
  rw [show ⌊(100 : ℚ)⌋ = 100 from Int.floor_eq_iff.mpr (by norm_num)]
  norm_num

theorem fmt_Dimp : formatSci D_PLA_imperm = "1.00e-15" := by
  unfold formatSci
  rw [if_neg (by norm_num [D_PLA_imperm]), if_neg (by norm_num [D_PLA_imperm]),
    abs_of_pos (by norm_num [D_PLA_imperm] : (0 : ℚ) < D_PLA_imperm)]
  dsimp only
  rw [sciExp_Dimp,
    show (D_PLA_imperm : ℚ) / (10 : ℚ) ^ (-15 : ℤ) * 100 = 100 from by
      norm_num [D_PLA_imperm], rhe_Dimp]
  rfl

theorem printed_output_five_sci_lines :
    printed_lines = some
        [ "Extracted diffusion coefficients (linear regression):",
          "Biopolymer-1 Ds (1×) = 3.36e-08 m²/s",
          "Biopolymer-1 Ds (2×) = 9.18e-08 m²/s",
          "Biopolymer-1 Ds (3×) = 8.41e-08 m²/s",
          "PLA Ds (permeable) = 1.12e-07 m²/s",
          "PLA Ds (impermeable) = 1.00e-15 m²/s" ] ∧
      (printed_lines.getD []).countP reportsD = 5 ∧
      (printed_lines.getD []).length = 6 := by
  have h : printed_lines = some
      [ "Extracted diffusion coefficients (linear regression):",
        "Biopolymer-1 Ds (1×) = 3.36e-08 m²/s",
        "Biopolymer-1 Ds (2×) = 9.18e-08 m²/s",
        "Biopolymer-1 Ds (3×) = 8.41e-08 m²/s",
        "PLA Ds (permeable) = 1.12e-07 m²/s",
        "PLA Ds (impermeable) = 1.00e-15 m²/s" ] := by
    unfold printed_lines
    rw [fit1_eq, fit2_eq, fit3_eq, fitP_eq]
    simp only [Option.bind_eq_bind, Option.some_bind]
    rw [extract1_eq, extract2_eq, extract3_eq, extractP_eq]
    simp only [Option.bind_eq_bind, Option.some_bind]
    rw [fmt_D1, fmt_D2, fmt_D3, fmt_DP, fmt_Dimp]
    rfl
  refine ⟨h, ?_, ?_⟩ <;> rw [h] <;> rfl
